import Mathlib

/-!
Verification of the socket message-delivery core (socket.js) of the
Link backend.

The embedding models the in-memory `userSockets` object as an association
list from user id to socket id, kept in the object's enumeration order
(assignment to an existing key keeps its position; a new key is appended),
and the durable `messages` table as a list of rows together with the next
auto-increment id. Each socket event handler is a pure function from the
server state to a new state plus the ordered list of outbound emissions
(an emission to target `none` models `io.to(undefined)`, which reaches no
connection) and the ordered list of store operations it issued. Store
failures are modelled by explicit failure flags, one per `db.query` call
in the handler, mirroring the error-first callbacks of the source.
-/

namespace LinkBackend

/-- A row of the durable messages table, as written by the handlers. -/
structure Message where
  message_id : Nat
  sender_id : Nat
  receiver_id : Nat
  message_text : String
  delivered : Bool
  is_read : Bool
deriving DecidableEq, Repr

/-- Server state: the `userSockets` map (user id to socket id, in the
object's enumeration order) and the durable messages table with its next
auto-increment id. -/
structure ServerState where
  userSockets : List (Nat × Nat)
  messages : List Message
  nextId : Nat
deriving DecidableEq, Repr

/-- Outbound socket events emitted by the handlers. -/
inductive Emission where
  | messageSaved (tempId messageId : Nat)
  | messageDelivered (messageId : Nat)
  | unreadMessagesCount (count : Nat)
  | receiveMessage (messageId senderId : Nat) (text : String)
  | messageReadReceipt (receiverId : Nat) (messageIds : List Nat)
  | typingEv (senderId receiverId : Nat)
  | stopTypingEv (senderId receiverId : Nat)
deriving DecidableEq, Repr

/-- One call `io.to(target).emit(event)`. A `none` target models
`io.to(undefined)`: the emission reaches no connection. -/
structure TEmission where
  target : Option Nat
  event : Emission
deriving DecidableEq, Repr

/-- Store operations (db.query calls) issued by a handler, in order. -/
inductive StoreOp where
  | insertMessage (senderId receiverId : Nat) (text : String) (delivered : Bool)
  | markDelivered (receiverId : Nat)
  | selectBacklog (receiverId : Nat)
  | countUnread (receiverId : Nat)
  | updateRead (messageIds : List Nat)
deriving DecidableEq, Repr

/-- Result of running one handler: the new state, the emissions in the
order they were sent, and the store operations in the order they were
issued. -/
structure HandlerResult where
  state : ServerState
  emissions : List TEmission
  ops : List StoreOp
deriving DecidableEq, Repr

/-- Reading `userSockets[u]`: the socket id bound to user `u`, if any. -/
def lookupSocket : List (Nat × Nat) → Nat → Option Nat
  | [], _ => none
  | e :: rest, u => if e.1 = u then some e.2 else lookupSocket rest u

/-- Writing `userSockets[u] = s`: an existing key keeps its enumeration
position, a new key is appended. -/
def setBinding : List (Nat × Nat) → Nat → Nat → List (Nat × Nat)
  | [], u, s => [(u, s)]
  | e :: rest, u, s => if e.1 = u then (u, s) :: rest else e :: setBinding rest u s

/-- The disconnect loop: `for (userId in userSockets) if value === socket.id
then delete and break` — removes the first entry (in enumeration order)
bound to the disconnecting socket, and nothing else. -/
def removeFirstBySocket : List (Nat × Nat) → Nat → List (Nat × Nat)
  | [], _ => []
  | e :: rest, s => if e.2 = s then rest else e :: removeFirstBySocket rest s

/-- The row with a given message id, if present (first match). -/
def msgById (st : ServerState) (i : Nat) : Option Message :=
  st.messages.find? (fun m => m.message_id == i)

/-- Row transformation of the bulk UPDATE in registerUser: set
`delivered = TRUE` where `receiver_id = userId AND delivered = FALSE`. -/
def deliverFor (userId : Nat) (m : Message) : Message :=
  if m.receiver_id == userId && !m.delivered then { m with delivered := true } else m

/-- Row predicate of the backlog SELECT in registerUser:
`receiver_id = userId AND delivered = TRUE AND is_read = FALSE`. -/
def backlogFilter (userId : Nat) (m : Message) : Bool :=
  m.receiver_id == userId && m.delivered && !m.is_read

/-- The per-backlog-row emission of registerUser: `messageDelivered` to the
row's original sender when that sender is online, nothing otherwise. -/
def deliveredEmission (us : List (Nat × Nat)) (m : Message) : Option TEmission :=
  (lookupSocket us m.sender_id).map (fun sid =>
    TEmission.mk (some sid) (Emission.messageDelivered m.message_id))

/-- Row transformation of the UPDATE in messageRead: set `is_read = TRUE`
where `message_id IN (ids)` — with no condition on `delivered`. -/
def markReadFor (ids : List Nat) (m : Message) : Message :=
  if ids.contains m.message_id then { m with is_read := true } else m

/-- Row predicate of the unread COUNT in sendMessage:
`receiver_id = receiverId AND is_read = FALSE`. -/
def unreadFilter (receiverId : Nat) (m : Message) : Bool :=
  m.receiver_id == receiverId && !m.is_read

/-- Handler of `socket.on("registerUser")`. If the stored binding differs
from the arriving socket's id, rebind, bulk-mark the user's undelivered
messages as delivered, select the delivered-but-unread backlog and emit
`messageDelivered` to each original sender who is online; otherwise the
whole body is skipped. `updateFails` and `selectFails` are the failure
flags of the two `db.query` calls. -/
def registerUser (st : ServerState) (socketId userId : Nat)
    (updateFails selectFails : Bool) : HandlerResult :=
  if lookupSocket st.userSockets userId ≠ some socketId then
    let us := setBinding st.userSockets userId socketId
    if updateFails then
      ⟨{ st with userSockets := us }, [], [.markDelivered userId]⟩
    else
      let msgs := st.messages.map (deliverFor userId)
      if selectFails then
        ⟨{ st with userSockets := us, messages := msgs }, [],
          [.markDelivered userId, .selectBacklog userId]⟩
      else
        let results := msgs.filter (backlogFilter userId)
        let ems := results.filterMap (deliveredEmission us)
        ⟨{ st with userSockets := us, messages := msgs }, ems,
          [.markDelivered userId, .selectBacklog userId]⟩
  else
    ⟨st, [], []⟩

/-- Handler of `socket.on("sendMessage")`. Both socket lookups happen
before the insert; the row is inserted with `delivered = !!receiverSocketId`;
`messageSaved` goes to `userSockets[senderId]` (not to the arriving
socket, whose id the handler never reads); the receiver-side block runs
only when the receiver is online. `insertFails` and `countFails` are the
failure flags of the two `db.query` calls. -/
def sendMessage (st : ServerState) (_socketId senderId receiverId : Nat)
    (text : String) (tempId : Nat) (insertFails countFails : Bool) : HandlerResult :=
  let receiverSocketId := lookupSocket st.userSockets receiverId
  let senderSocketId := lookupSocket st.userSockets senderId
  let insOp := StoreOp.insertMessage senderId receiverId text receiverSocketId.isSome
  if insertFails then
    ⟨st, [], [insOp]⟩
  else
    let messageId := st.nextId
    let row : Message := ⟨messageId, senderId, receiverId, text, receiverSocketId.isSome, false⟩
    let st1 : ServerState := { st with messages := st.messages ++ [row], nextId := st.nextId + 1 }
    let savedEm := TEmission.mk senderSocketId (.messageSaved tempId messageId)
    match receiverSocketId with
    | none => ⟨st1, [savedEm], [insOp]⟩
    | some rsid =>
      if countFails then
        ⟨st1, [savedEm], [insOp, .countUnread receiverId]⟩
      else
        let unreadCount := (st1.messages.filter (unreadFilter receiverId)).length
        ⟨st1,
          [savedEm,
           ⟨some rsid, .unreadMessagesCount unreadCount⟩,
           ⟨some rsid, .receiveMessage messageId senderId text⟩,
           ⟨senderSocketId, .messageDelivered messageId⟩],
          [insOp, .countUnread receiverId]⟩

/-- Handler of `socket.on("messageRead")`. A missing (`none`) or empty id
list is rejected before any store access; otherwise the update sets
`is_read = TRUE` for exactly the given ids (the source UPDATE has no
delivered condition), and on success the receipt goes to
`userSockets[senderId]` if that user is online. `updateFails` is the
failure flag of the `db.query` call. -/
def messageRead (st : ServerState) (_socketId : Nat) (messageIds : Option (List Nat))
    (senderId receiverId : Nat) (updateFails : Bool) : HandlerResult :=
  match messageIds with
  | none => ⟨st, [], []⟩
  | some ids =>
    if ids.length = 0 then ⟨st, [], []⟩
    else
      let senderSocketId := lookupSocket st.userSockets senderId
      if updateFails then
        ⟨st, [], [.updateRead ids]⟩
      else
        let msgs := st.messages.map (markReadFor ids)
        let ems := match senderSocketId with
          | some sid => [TEmission.mk (some sid) (.messageReadReceipt receiverId ids)]
          | none => []
        ⟨{ st with messages := msgs }, ems, [.updateRead ids]⟩

/-- Handler of `socket.on("typing")`: pure relay to the receiver when
online. -/
def typingRelay (st : ServerState) (senderId receiverId : Nat) : HandlerResult :=
  match lookupSocket st.userSockets receiverId with
  | some rsid => ⟨st, [TEmission.mk (some rsid) (.typingEv senderId receiverId)], []⟩
  | none => ⟨st, [], []⟩

/-- Handler of `socket.on("stopTyping")`: pure relay to the receiver when
online. -/
def stopTypingRelay (st : ServerState) (senderId receiverId : Nat) : HandlerResult :=
  match lookupSocket st.userSockets receiverId with
  | some rsid => ⟨st, [TEmission.mk (some rsid) (.stopTypingEv senderId receiverId)], []⟩
  | none => ⟨st, [], []⟩

/-- Handler of `socket.on("disconnect")`: removes the first `userSockets`
entry whose value is the disconnecting socket id, then breaks. -/
def onDisconnect (st : ServerState) (socketId : Nat) : HandlerResult :=
  ⟨{ st with userSockets := removeFirstBySocket st.userSockets socketId }, [], []⟩

/-- Inbound events, each carrying the arriving socket id and the failure
flags of the store calls its handler makes. -/
inductive Event where
  | register (socketId userId : Nat) (updateFails selectFails : Bool)
  | send (socketId senderId receiverId : Nat) (text : String) (tempId : Nat)
      (insertFails countFails : Bool)
  | read (socketId : Nat) (messageIds : Option (List Nat)) (senderId receiverId : Nat)
      (updateFails : Bool)
  | disconnect (socketId : Nat)
  | typing (socketId senderId receiverId : Nat)
  | stopTyping (socketId senderId receiverId : Nat)
deriving DecidableEq, Repr

/-- Dispatch of one inbound event to its handler. -/
def step (st : ServerState) : Event → HandlerResult
  | .register s u f1 f2 => registerUser st s u f1 f2
  | .send s a b t tid f1 f2 => sendMessage st s a b t tid f1 f2
  | .read s ids a b f => messageRead st s ids a b f
  | .disconnect s => onDisconnect st s
  | .typing _ a b => typingRelay st a b
  | .stopTyping _ a b => stopTypingRelay st a b

/-- Run a sequence of events from a state. -/
def run (st : ServerState) : List Event → ServerState
  | [] => st
  | e :: es => run (step st e).state es

/-- The state at process start: empty presence map, empty table. -/
def initState : ServerState := ⟨[], [], 1⟩

/-- Well-formedness of the auto-increment id: every stored row's id is
below the next id to be assigned. -/
def wfIds (st : ServerState) : Bool :=
  st.messages.all (fun m => m.message_id < st.nextId)

/-- The durable invariant claimed by the spec: every read row is
delivered. -/
def readImpliesDelivered (st : ServerState) : Bool :=
  st.messages.all (fun m => !m.is_read || m.delivered)

/-- A read event is safe for a state when every id it names belongs only
to rows already delivered. -/
def safeReadEvent (st : ServerState) : Event → Bool
  | .read _ (some ids) _ _ _ =>
    ids.all (fun i => st.messages.all (fun m => m.message_id != i || m.delivered))
  | _ => true

/-! ### Helper lemmas about the presence registry -/

lemma lookup_setBinding_self (us : List (Nat × Nat)) (u s : Nat) :
    lookupSocket (setBinding us u s) u = some s := by
  induction us with
  | nil => simp [setBinding, lookupSocket]
  | cons e rest ih =>
    by_cases h : e.1 = u
    · simp [setBinding, lookupSocket, h]
    · simp [setBinding, lookupSocket, h, ih]

lemma lookup_removeFirst_of_ne (us : List (Nat × Nat)) (u c b : Nat)
    (hb : lookupSocket us u = some b) (hbc : b ≠ c) :
    lookupSocket (removeFirstBySocket us c) u = some b := by
  induction us with
  | nil => simp [lookupSocket] at hb
  | cons e rest ih =>
    by_cases h1 : e.1 = u
    · have he : e.2 = b := by simpa [lookupSocket, h1] using hb
      simp [removeFirstBySocket, he, hbc, lookupSocket, h1]
    · have hb2 : lookupSocket rest u = some b := by simpa [lookupSocket, h1] using hb
      by_cases h2 : e.2 = c
      · simpa [removeFirstBySocket, h2] using hb2
      · simp [removeFirstBySocket, h2, lookupSocket, h1, ih hb2]

lemma removeFirst_of_not_present (us : List (Nat × Nat)) (c : Nat)
    (h : ∀ e ∈ us, e.2 ≠ c) :
    removeFirstBySocket us c = us := by
  induction us with
  | nil => rfl
  | cons e rest ih =>
    have he : e.2 ≠ c := h e (by simp)
    simp [removeFirstBySocket, he, ih (fun x hx => h x (by simp [hx]))]

lemma removeFirst_append_first (pre post : List (Nat × Nat)) (u c : Nat)
    (h : ∀ e ∈ pre, e.2 ≠ c) :
    removeFirstBySocket (pre ++ (u, c) :: post) c = pre ++ post := by
  induction pre with
  | nil => simp [removeFirstBySocket]
  | cons e rest ih =>
    have he : e.2 ≠ c := h e (by simp)
    simp [removeFirstBySocket, he, ih (fun x hx => h x (by simp [hx]))]

/-! ### Helper lemmas about the registerUser handler -/

lemma registerUser_of_dup (st : ServerState) (socketId userId : Nat) (f1 f2 : Bool)
    (h : lookupSocket st.userSockets userId = some socketId) :
    registerUser st socketId userId f1 f2 = ⟨st, [], []⟩ := by
  simp [registerUser, h]

lemma registerUser_userSockets_changed (st : ServerState) (socketId userId : Nat)
    (f1 f2 : Bool) (h : lookupSocket st.userSockets userId ≠ some socketId) :
    (registerUser st socketId userId f1 f2).state.userSockets =
      setBinding st.userSockets userId socketId := by
  unfold registerUser
  rw [if_pos h]
  cases f1 <;> cases f2 <;> rfl

lemma registerUser_lookup_self (st : ServerState) (socketId userId : Nat) (f1 f2 : Bool) :
    lookupSocket (registerUser st socketId userId f1 f2).state.userSockets userId =
      some socketId := by
  by_cases h : lookupSocket st.userSockets userId = some socketId
  · rw [registerUser_of_dup st socketId userId f1 f2 h]
    exact h
  · rw [registerUser_userSockets_changed st socketId userId f1 f2 h]
    exact lookup_setBinding_self _ _ _

/-! ### Helper lemmas about find? and filters over the messages table -/

lemma find?_append_of_forall_false {α : Type} (p : α → Bool) (l1 l2 : List α)
    (h : ∀ a ∈ l1, p a = false) :
    (l1 ++ l2).find? p = l2.find? p := by
  induction l1 with
  | nil => rfl
  | cons a l ih =>
    have ha : p a = false := h a (by simp)
    simp [List.find?_cons, ha, ih (fun x hx => h x (by simp [hx]))]

/-! ### Branch characterizations of the handlers -/

lemma registerUser_success_eq (st : ServerState) (socketId userId : Nat)
    (h : lookupSocket st.userSockets userId ≠ some socketId) :
    registerUser st socketId userId false false =
      ⟨⟨setBinding st.userSockets userId socketId,
        st.messages.map (deliverFor userId), st.nextId⟩,
       ((st.messages.map (deliverFor userId)).filter (backlogFilter userId)).filterMap
         (deliveredEmission (setBinding st.userSockets userId socketId)),
       [.markDelivered userId, .selectBacklog userId]⟩ := by
  unfold registerUser
  rw [if_pos h]
  rfl

lemma sendMessage_offline_eq (st : ServerState) (sock senderId receiverId : Nat)
    (text : String) (tempId : Nat)
    (hOff : lookupSocket st.userSockets receiverId = none) :
    sendMessage st sock senderId receiverId text tempId false false =
      ⟨⟨st.userSockets,
        st.messages ++ [⟨st.nextId, senderId, receiverId, text, false, false⟩],
        st.nextId + 1⟩,
       [⟨lookupSocket st.userSockets senderId, .messageSaved tempId st.nextId⟩],
       [.insertMessage senderId receiverId text false]⟩ := by
  unfold sendMessage
  rw [hOff]
  rfl

lemma sendMessage_online_eq (st : ServerState) (sock senderId receiverId rsid : Nat)
    (text : String) (tempId : Nat)
    (hOn : lookupSocket st.userSockets receiverId = some rsid) :
    sendMessage st sock senderId receiverId text tempId false false =
      ⟨⟨st.userSockets,
        st.messages ++ [⟨st.nextId, senderId, receiverId, text, true, false⟩],
        st.nextId + 1⟩,
       [⟨lookupSocket st.userSockets senderId, .messageSaved tempId st.nextId⟩,
        ⟨some rsid, .unreadMessagesCount
          (((st.messages ++ [(⟨st.nextId, senderId, receiverId, text, true, false⟩ : Message)]).filter
            (unreadFilter receiverId)).length)⟩,
        ⟨some rsid, .receiveMessage st.nextId senderId text⟩,
        ⟨lookupSocket st.userSockets senderId, .messageDelivered st.nextId⟩],
       [.insertMessage senderId receiverId text true, .countUnread receiverId]⟩ := by
  unfold sendMessage
  rw [hOn]
  rfl

lemma messageRead_success_eq (st : ServerState) (sock : Nat) (ids : List Nat)
    (senderId receiverId : Nat) (hne : ids ≠ []) :
    messageRead st sock (some ids) senderId receiverId false =
      ⟨⟨st.userSockets, st.messages.map (markReadFor ids), st.nextId⟩,
       (match lookupSocket st.userSockets senderId with
        | some sid => [⟨some sid, .messageReadReceipt receiverId ids⟩]
        | none => []),
       [.updateRead ids]⟩ := by
  unfold messageRead
  dsimp only
  rw [if_neg (fun h0 => hne (List.length_eq_zero.mp h0))]
  rfl

/-! ### Row-level lemmas -/

lemma deliverFor_id (u : Nat) (m : Message) :
    (deliverFor u m).message_id = m.message_id := by
  unfold deliverFor; split <;> rfl

lemma deliverFor_is_read (u : Nat) (m : Message) :
    (deliverFor u m).is_read = m.is_read := by
  unfold deliverFor; split <;> rfl

lemma deliverFor_delivered_mono (u : Nat) (m : Message) (h : m.delivered = true) :
    (deliverFor u m).delivered = true := by
  unfold deliverFor; split
  · rfl
  · exact h

lemma markReadFor_id (ids : List Nat) (m : Message) :
    (markReadFor ids m).message_id = m.message_id := by
  unfold markReadFor; split <;> rfl

lemma markReadFor_delivered (ids : List Nat) (m : Message) :
    (markReadFor ids m).delivered = m.delivered := by
  unfold markReadFor; split <;> rfl

lemma rowInv_deliverFor (u : Nat) (m : Message)
    (h : (!m.is_read || m.delivered) = true) :
    (!(deliverFor u m).is_read || (deliverFor u m).delivered) = true := by
  unfold deliverFor; split
  · simp
  · exact h

lemma rowInv_markReadFor (ids : List Nat) (m : Message)
    (hdel : ids.contains m.message_id = true → m.delivered = true)
    (h : (!m.is_read || m.delivered) = true) :
    (!(markReadFor ids m).is_read || (markReadFor ids m).delivered) = true := by
  unfold markReadFor; split
  · rename_i hc
    simp [hdel hc]
  · exact h

/-! ### What each handler does to the messages table -/

lemma registerUser_messages (st : ServerState) (s u : Nat) (f1 f2 : Bool) :
    (registerUser st s u f1 f2).state.messages = st.messages ∨
    (registerUser st s u f1 f2).state.messages = st.messages.map (deliverFor u) := by
  unfold registerUser
  split
  · cases f1
    · cases f2
      · right; rfl
      · right; rfl
    · left; rfl
  · left; rfl

lemma sendMessage_messages (st : ServerState) (s a b : Nat) (t : String) (tid : Nat)
    (f1 f2 : Bool) :
    (sendMessage st s a b t tid f1 f2).state.messages = st.messages ∨
    ∃ row : Message, row.is_read = false ∧
      (sendMessage st s a b t tid f1 f2).state.messages = st.messages ++ [row] := by
  unfold sendMessage
  cases f1
  · cases h : lookupSocket st.userSockets b
    · right; exact ⟨⟨st.nextId, a, b, t, false, false⟩, rfl, rfl⟩
    · cases f2
      · right; exact ⟨⟨st.nextId, a, b, t, true, false⟩, rfl, rfl⟩
      · right; exact ⟨⟨st.nextId, a, b, t, true, false⟩, rfl, rfl⟩
  · left; rfl

lemma messageRead_messages (st : ServerState) (s : Nat) (mids : Option (List Nat))
    (a b : Nat) (f : Bool) :
    (messageRead st s mids a b f).state.messages = st.messages ∨
    ∃ ids, mids = some ids ∧
      (messageRead st s mids a b f).state.messages = st.messages.map (markReadFor ids) := by
  unfold messageRead
  cases mids with
  | none => left; rfl
  | some ids =>
    dsimp only
    split
    · left; rfl
    · cases f
      · right; exact ⟨ids, rfl, rfl⟩
      · left; rfl

lemma typingRelay_state (st : ServerState) (a b : Nat) :
    (typingRelay st a b).state = st := by
  unfold typingRelay
  cases h : lookupSocket st.userSockets b <;> rfl

lemma stopTypingRelay_state (st : ServerState) (a b : Nat) :
    (stopTypingRelay st a b).state = st := by
  unfold stopTypingRelay
  cases h : lookupSocket st.userSockets b <;> rfl

lemma filter_deliveredM_nil (l : List Message) (us : List (Nat × Nat)) (M : Nat)
    (h : ∀ m ∈ l, m.message_id ≠ M) :
    ((l.filterMap (deliveredEmission us)).filter
      (fun em => em.event == Emission.messageDelivered M)) = [] := by
  induction l with
  | nil => rfl
  | cons m rest ih =>
    have hm : m.message_id ≠ M := h m (by simp)
    have hrest := ih (fun x hx => h x (by simp [hx]))
    cases hl : lookupSocket us m.sender_id with
    | none => simp [List.filterMap_cons, deliveredEmission, hl, hrest]
    | some sid =>
      simp [List.filterMap_cons, deliveredEmission, hl, List.filter_cons, hm, hrest]

/-! ### Claim theorems -/

/-- C1 counterexample: the read-mark UPDATE has no delivered condition, so
after sending to an offline receiver (row stored with delivered=false)
and a read event naming that row, the durable state shows is_read=true
with delivered=false — the claimed invariant fails on this sequence. -/
theorem c1_read_mark_without_delivery_cx :
    msgById (run initState [Event.send 10 1 2 "hi" 5 false false,
      Event.read 20 (some [1]) 1 2 false]) 1 = some ⟨1, 1, 2, "hi", false, true⟩ ∧
    readImpliesDelivered (run initState [Event.send 10 1 2 "hi" 5 false false,
      Event.read 20 (some [1]) 1 2 false]) = false := by
  decide

/-- C1 as amended: delivered is monotonic across every event (a delivered
row keeps its id and stays delivered), and the invariant is_read implies
delivered is preserved by every event provided each read event names
only ids whose rows are already delivered; the core itself issues
read-marks for exactly the ids given, without checking delivery. -/
theorem c1_delivered_monotone_and_guarded_read (st : ServerState) (e : Event) :
    (∀ m ∈ st.messages, m.delivered = true →
      ∃ m' ∈ (step st e).state.messages,
        m'.message_id = m.message_id ∧ m'.delivered = true) ∧
    (readImpliesDelivered st = true → safeReadEvent st e = true →
      readImpliesDelivered (step st e).state = true) := by
  constructor
  · intro m hm hd
    cases e with
    | register s u f1 f2 =>
      rcases registerUser_messages st s u f1 f2 with h | h
      · exact ⟨m, by dsimp only [step]; rw [h]; exact hm, rfl, hd⟩
      · refine ⟨deliverFor u m, ?_, deliverFor_id u m, deliverFor_delivered_mono u m hd⟩
        dsimp only [step]; rw [h]
        exact List.mem_map_of_mem _ hm
    | send s a b t tid f1 f2 =>
      rcases sendMessage_messages st s a b t tid f1 f2 with h | ⟨row, _, h⟩
      · exact ⟨m, by dsimp only [step]; rw [h]; exact hm, rfl, hd⟩
      · exact ⟨m, by dsimp only [step]; rw [h]; exact List.mem_append_left _ hm, rfl, hd⟩
    | read s mids a b f =>
      rcases messageRead_messages st s mids a b f with h | ⟨ids, hmids, h⟩
      · exact ⟨m, by dsimp only [step]; rw [h]; exact hm, rfl, hd⟩
      · refine ⟨markReadFor ids m, ?_, markReadFor_id ids m,
          by rw [markReadFor_delivered]; exact hd⟩
        dsimp only [step]; rw [h]
        exact List.mem_map_of_mem _ hm
    | disconnect s => exact ⟨m, hm, rfl, hd⟩
    | typing s a b =>
      exact ⟨m, by dsimp only [step]; rw [typingRelay_state]; exact hm, rfl, hd⟩
    | stopTyping s a b =>
      exact ⟨m, by dsimp only [step]; rw [stopTypingRelay_state]; exact hm, rfl, hd⟩
  · intro hInv hSafe
    simp only [readImpliesDelivered, List.all_eq_true] at hInv ⊢
    cases e with
    | register s u f1 f2 =>
      rcases registerUser_messages st s u f1 f2 with h | h <;> dsimp only [step] <;> rw [h]
      · exact hInv
      · intro x hx
        rw [List.mem_map] at hx
        obtain ⟨m, hm, rfl⟩ := hx
        exact rowInv_deliverFor u m (hInv m hm)
    | send s a b t tid f1 f2 =>
      rcases sendMessage_messages st s a b t tid f1 f2 with h | ⟨row, hrow, h⟩ <;>
        dsimp only [step] <;> rw [h]
      · exact hInv
      · intro x hx
        rcases List.mem_append.mp hx with hx | hx
        · exact hInv x hx
        · rw [List.mem_singleton] at hx
          subst hx
          simp [hrow]
    | read s mids a b f =>
      rcases messageRead_messages st s mids a b f with h | ⟨ids, hmids, h⟩ <;>
        dsimp only [step] <;> rw [h]
      · exact hInv
      · subst hmids
        dsimp only [safeReadEvent] at hSafe
        simp only [List.all_eq_true] at hSafe
        intro x hx
        rw [List.mem_map] at hx
        obtain ⟨m, hm, rfl⟩ := hx
        refine rowInv_markReadFor ids m ?_ (hInv m hm)
        intro hc
        have hmem : m.message_id ∈ ids := by simpa using hc
        simpa using hSafe m.message_id hmem m hm
    | disconnect s => exact hInv
    | typing s a b =>
      dsimp only [step]; rw [typingRelay_state]; exact hInv
    | stopTyping s a b =>
      dsimp only [step]; rw [stopTypingRelay_state]; exact hInv

/-- Witness for amended C1 at a concrete input: one delivered unread row,
then a safe read event naming it; the row keeps its id and delivered
flag, and the invariant still holds afterwards. -/
theorem c1_delivered_monotone_and_guarded_read_witness :
    (∃ m' ∈ (step ⟨[], [⟨1, 1, 2, "a", true, false⟩], 2⟩
        (.read 5 (some [1]) 1 2 false)).state.messages,
      m'.message_id = 1 ∧ m'.delivered = true) ∧
    readImpliesDelivered (step ⟨[], [⟨1, 1, 2, "a", true, false⟩], 2⟩
      (.read 5 (some [1]) 1 2 false)).state = true := by
  have h := c1_delivered_monotone_and_guarded_read
    ⟨[], [⟨1, 1, 2, "a", true, false⟩], 2⟩ (.read 5 (some [1]) 1 2 false)
  exact ⟨h.1 ⟨1, 1, 2, "a", true, false⟩ (by decide) (by decide),
    h.2 (by decide) (by decide)⟩

/-- C2: for register/disconnect sequences on one user, the registry keeps
the most recently registered connection. After register(u,A);
register(u,B); disconnect(A) the lookup still returns B; a disconnect of
any connection other than a user's current one preserves that user's
binding; and a disconnect of a connection bound to no one is a no-op. -/
theorem c2_latest_registration_wins (st : ServerState) (u A B : Nat) (f1 f2 f3 f4 : Bool)
    (hAB : A ≠ B) :
    lookupSocket (run st [.register A u f1 f2, .register B u f3 f4,
      .disconnect A]).userSockets u = some B ∧
    (∀ us : List (Nat × Nat), ∀ v C D : Nat, lookupSocket us v = some C → D ≠ C →
      lookupSocket (removeFirstBySocket us D) v = some C) ∧
    (∀ st2 : ServerState, ∀ c : Nat, (∀ e ∈ st2.userSockets, e.2 ≠ c) →
      (onDisconnect st2 c).state = st2) := by
  refine ⟨?_, ?_, ?_⟩
  · simp only [run, step, onDisconnect]
    exact lookup_removeFirst_of_ne _ u A B
      (registerUser_lookup_self _ B u f3 f4) (Ne.symm hAB)
  · intro us v C D hC hDC
    exact lookup_removeFirst_of_ne us v D C hC (Ne.symm hDC)
  · intro st2 c hc
    show ({ st2 with userSockets := removeFirstBySocket st2.userSockets c } : ServerState) = st2
    rw [removeFirst_of_not_present st2.userSockets c hc]

/-- Witness for C2 at a concrete input: user 1 registers socket 10 then
socket 20, then socket 10 disconnects; the lookup still gives 20. -/
theorem c2_latest_registration_wins_witness :
    lookupSocket (run initState [Event.register 10 1 false false,
      Event.register 20 1 false false, Event.disconnect 10]).userSockets 1 = some 20 ∧
    lookupSocket (removeFirstBySocket [(1, 20)] 10) 1 = some 20 ∧
    (onDisconnect ⟨[(1, 20)], [], 1⟩ 10).state = ⟨[(1, 20)], [], 1⟩ := by
  obtain ⟨h1, h2, h3⟩ :=
    c2_latest_registration_wins initState 1 10 20 false false false false (by decide)
  exact ⟨h1, h2 [(1, 20)] 1 20 10 (by decide) (by decide),
    h3 ⟨[(1, 20)], [], 1⟩ 10 (by decide)⟩

/-- C3: a send event whose receiver is offline emits only the messageSaved
acknowledgement (nothing reaches the receiver) and stores the row with
delivered=false; when that receiver then registers successfully, the
stored row flips to delivered=true, and if the sender is then online,
exactly one messageDelivered for that message id is emitted, to the
sender's connection. -/
theorem c3_offline_send_then_register (st : ServerState)
    (sock s2 senderId receiverId ssid : Nat) (text : String) (tempId : Nat)
    (hOff : lookupSocket st.userSockets receiverId = none)
    (hWF : wfIds st = true) :
    (sendMessage st sock senderId receiverId text tempId false false).emissions =
      [⟨lookupSocket st.userSockets senderId, .messageSaved tempId st.nextId⟩] ∧
    msgById (sendMessage st sock senderId receiverId text tempId false false).state
      st.nextId = some ⟨st.nextId, senderId, receiverId, text, false, false⟩ ∧
    msgById (registerUser
        (sendMessage st sock senderId receiverId text tempId false false).state
        s2 receiverId false false).state st.nextId =
      some ⟨st.nextId, senderId, receiverId, text, true, false⟩ ∧
    (lookupSocket (setBinding st.userSockets receiverId s2) senderId = some ssid →
      ((registerUser
          (sendMessage st sock senderId receiverId text tempId false false).state
          s2 receiverId false false).emissions.filter
        (fun em => em.event == Emission.messageDelivered st.nextId)) =
        [⟨some ssid, .messageDelivered st.nextId⟩]) := by
  simp only [wfIds, List.all_eq_true, decide_eq_true_eq] at hWF
  have hid : ∀ m ∈ st.messages, (m.message_id == st.nextId) = false := fun m hm =>
    beq_eq_false_iff_ne.mpr (Nat.ne_of_lt (hWF m hm))
  have hcond : lookupSocket st.userSockets receiverId ≠ some s2 := by
    rw [hOff]; simp
  rw [sendMessage_offline_eq st sock senderId receiverId text tempId hOff]
  dsimp only
  rw [registerUser_success_eq
      ⟨st.userSockets,
        st.messages ++ [(⟨st.nextId, senderId, receiverId, text, false, false⟩ : Message)],
        st.nextId + 1⟩ s2 receiverId hcond]
  have hmapid : ∀ m' ∈ st.messages.map (deliverFor receiverId),
      (m'.message_id == st.nextId) = false := by
    intro m' hm'
    rw [List.mem_map] at hm'
    obtain ⟨m, hm, rfl⟩ := hm'
    rw [deliverFor_id]
    exact hid m hm
  refine ⟨rfl, ?_, ?_, ?_⟩
  · unfold msgById
    dsimp only
    rw [find?_append_of_forall_false _ _ _ hid]
    simp [List.find?_cons]
  · unfold msgById
    dsimp only
    rw [List.map_append, find?_append_of_forall_false _ _ _ hmapid]
    simp [List.find?_cons, deliverFor]
  · intro hOn
    dsimp only
    simp only [List.map_append, List.filter_append, List.filterMap_append]
    rw [filter_deliveredM_nil _ _ _ (fun m' hm' => by
      have hm2 := List.mem_of_mem_filter hm'
      rw [List.mem_map] at hm2
      obtain ⟨m, hm, rfl⟩ := hm2
      rw [deliverFor_id]
      exact Nat.ne_of_lt (hWF m hm))]
    simp [deliverFor, backlogFilter, deliveredEmission, hOn,
      List.filter_cons, List.filterMap_cons]

/-- Witness for C3 at a concrete input: sender 1 on socket 7, receiver 2
offline, one message; after receiver 2 registers socket 30 the row is
delivered and exactly one messageDelivered reaches socket 7. -/
theorem c3_offline_send_then_register_witness :
    (sendMessage ⟨[(1, 7)], [], 1⟩ 7 1 2 "hi" 5 false false).emissions =
      [⟨some 7, .messageSaved 5 1⟩] ∧
    msgById (sendMessage ⟨[(1, 7)], [], 1⟩ 7 1 2 "hi" 5 false false).state 1 =
      some ⟨1, 1, 2, "hi", false, false⟩ ∧
    msgById (registerUser (sendMessage ⟨[(1, 7)], [], 1⟩ 7 1 2 "hi" 5 false false).state
      30 2 false false).state 1 = some ⟨1, 1, 2, "hi", true, false⟩ ∧
    ((registerUser (sendMessage ⟨[(1, 7)], [], 1⟩ 7 1 2 "hi" 5 false false).state
      30 2 false false).emissions.filter
        (fun em => em.event == Emission.messageDelivered 1)) =
      [⟨some 7, .messageDelivered 1⟩] := by
  have h := c3_offline_send_then_register ⟨[(1, 7)], [], 1⟩ 7 30 1 2 7 "hi" 5
    (by decide) (by decide)
  exact ⟨h.1.trans (by decide), h.2.1, h.2.2.1, h.2.2.2 (by decide)⟩

/-- C4: re-registering the same (user, connection) pair is a complete
no-op: the state is unchanged, no store operation is issued and nothing
is emitted, so the backlog-reconciliation side effects run only when the
binding actually changes. -/
theorem c4_duplicate_registration_noop (st : ServerState) (socketId userId : Nat)
    (f1 f2 : Bool) (h : lookupSocket st.userSockets userId = some socketId) :
    registerUser st socketId userId f1 f2 = ⟨st, [], []⟩ :=
  registerUser_of_dup st socketId userId f1 f2 h

/-- Witness for C4 at a concrete input: user 1 already bound to socket 5
re-registers socket 5 and nothing happens. -/
theorem c4_duplicate_registration_noop_witness :
    registerUser ⟨[(1, 5)], [], 1⟩ 5 1 false false = ⟨⟨[(1, 5)], [], 1⟩, [], []⟩ :=
  c4_duplicate_registration_noop ⟨[(1, 5)], [], 1⟩ 5 1 false false (by decide)

/-- C5: with the receiver online, a send event emits exactly, and in this
order: messageSaved to the sender's binding, unreadMessagesCount to the
receiver, receiveMessage to the receiver, messageDelivered to the
sender's binding — so messageSaved precedes messageDelivered, the unread
count precedes receiveMessage, and all receiver-side and delivery
emissions come after messageSaved. -/
theorem c5_online_send_emission_order (st : ServerState) (sock senderId receiverId rsid : Nat)
    (text : String) (tempId : Nat)
    (hOn : lookupSocket st.userSockets receiverId = some rsid) :
    (sendMessage st sock senderId receiverId text tempId false false).emissions =
      [⟨lookupSocket st.userSockets senderId, .messageSaved tempId st.nextId⟩,
       ⟨some rsid, .unreadMessagesCount
         (((st.messages ++ [(⟨st.nextId, senderId, receiverId, text, true, false⟩ : Message)]).filter
           (unreadFilter receiverId)).length)⟩,
       ⟨some rsid, .receiveMessage st.nextId senderId text⟩,
       ⟨lookupSocket st.userSockets senderId, .messageDelivered st.nextId⟩] := by
  rw [sendMessage_online_eq st sock senderId receiverId rsid text tempId hOn]

/-- Witness for C5 at a concrete input: sender 1 on socket 7, receiver 2
on socket 9, one message; the four emissions appear in the stated order. -/
theorem c5_online_send_emission_order_witness :
    (sendMessage ⟨[(1, 7), (2, 9)], [], 1⟩ 7 1 2 "hi" 5 false false).emissions =
      [⟨some 7, .messageSaved 5 1⟩,
       ⟨some 9, .unreadMessagesCount 1⟩,
       ⟨some 9, .receiveMessage 1 1 "hi"⟩,
       ⟨some 7, .messageDelivered 1⟩] := by
  have h := c5_online_send_emission_order ⟨[(1, 7), (2, 9)], [], 1⟩ 7 1 2 9 "hi" 5 (by decide)
  exact h.trans (by decide)

/-- C6 counterexample: the read receipt goes to the connection bound to
the senderId field of the event, not to the stored sender of the
messages. Message 1 was sent by user 1 (bound to socket 7), but a read
event naming senderId 3 routes the receipt to user 3's socket 99. -/
theorem c6_receipt_to_event_sender_cx :
    (messageRead ⟨[(3, 99), (1, 7)], [⟨1, 1, 2, "hi", true, false⟩], 2⟩
      20 (some [1]) 3 2 false).emissions = [⟨some 99, .messageReadReceipt 2 [1]⟩] ∧
    (∀ m ∈ ([⟨1, 1, 2, "hi", true, false⟩] : List Message), m.sender_id = 1) ∧
    lookupSocket [(3, 99), (1, 7)] 1 = some 7 ∧
    (∀ em ∈ (messageRead ⟨[(3, 99), (1, 7)], [⟨1, 1, 2, "hi", true, false⟩], 2⟩
      20 (some [1]) 3 2 false).emissions, em.target ≠ some 7) := by
  decide

/-- C6 as amended: the receipt of a successful non-empty read event is
emitted only to the connection currently bound to the senderId field of
the event (and to no connection when that user is offline); it reaches
the original sender of the messages exactly when the event's senderId
matches the stored sender. -/
theorem c6_receipt_only_to_event_sender (st : ServerState) (sock : Nat) (ids : List Nat)
    (senderId receiverId : Nat) (hne : ids ≠ []) :
    (messageRead st sock (some ids) senderId receiverId false).emissions =
      match lookupSocket st.userSockets senderId with
      | some sid => [⟨some sid, .messageReadReceipt receiverId ids⟩]
      | none => [] := by
  rw [messageRead_success_eq st sock ids senderId receiverId hne]

/-- Witness for amended C6 at a concrete input: event senderId 1 is bound
to socket 7 and the receipt goes exactly there. -/
theorem c6_receipt_only_to_event_sender_witness :
    (messageRead ⟨[(1, 7)], [], 1⟩ 4 (some [1]) 1 2 false).emissions =
      [⟨some 7, .messageReadReceipt 2 [1]⟩] := by
  have h := c6_receipt_only_to_event_sender ⟨[(1, 7)], [], 1⟩ 4 [1] 1 2 (by decide)
  exact h.trans (by decide)

/-- C7 counterexample: a sender that never registered sends a message on
socket 10; the messageSaved acknowledgement targets io.to(undefined)
(reaching no connection), not the arriving socket 10. -/
theorem c7_saved_not_to_arriving_socket_cx :
    (sendMessage initState 10 1 2 "hi" 5 false false).emissions =
      [⟨none, .messageSaved 5 1⟩] ∧
    ∀ em ∈ (sendMessage initState 10 1 2 "hi" 5 false false).emissions,
      em.target ≠ some 10 := by
  decide

/-- C7 as amended: on a successful insert, the first emission of every
send event is messageSaved targeted at the presence-registry binding of
senderId — the arriving connection only when the sender is registered on
it, and no connection at all when the sender has no binding. -/
theorem c7_saved_to_registry_binding (st : ServerState) (sock senderId receiverId : Nat)
    (text : String) (tempId : Nat) (countFails : Bool) :
    (sendMessage st sock senderId receiverId text tempId false countFails).emissions.head? =
      some ⟨lookupSocket st.userSockets senderId, .messageSaved tempId st.nextId⟩ := by
  unfold sendMessage
  cases h : lookupSocket st.userSockets receiverId <;> cases countFails <;> simp [h]

/-- C8 counterexample: the rejection of an empty (or missing) messageIds
read event is silent to every client. At a concrete state with the
event's sender online at socket 7 and the event arriving on socket 20,
the handler emits nothing at all — so no client-visible error is
reported, only the server-side log; the state and store are untouched. -/
theorem c8_no_client_visible_error_cx :
    (messageRead ⟨[(1, 7)], [], 1⟩ 20 (some []) 1 2 false).emissions = [] ∧
    (messageRead ⟨[(1, 7)], [], 1⟩ 20 none 1 2 false).emissions = [] ∧
    (messageRead ⟨[(1, 7)], [], 1⟩ 20 (some []) 1 2 false).ops = [] ∧
    (messageRead ⟨[(1, 7)], [], 1⟩ 20 (some []) 1 2 false).state = ⟨[(1, 7)], [], 1⟩ := by
  decide

/-- C8 as amended: a read event with missing or empty messageIds is
rejected before any store access — the state is unchanged, no store
operation is issued and no event is emitted to any connection; the
rejection is logged only on the server, so the client observes nothing
beyond the missing acknowledgement. -/
theorem c8_empty_read_rejected (st : ServerState) (sock senderId receiverId : Nat)
    (f : Bool) :
    messageRead st sock none senderId receiverId f = ⟨st, [], []⟩ ∧
    messageRead st sock (some []) senderId receiverId f = ⟨st, [], []⟩ :=
  ⟨rfl, rfl⟩

/-- C9: a failed store operation aborts all further emissions of the
event with no retry: a failed insert leaves the state unchanged, emits
nothing (no messageSaved, no receiver-side events) and issues the insert
exactly once; a failed read-update on a non-empty id list emits no
messageRead receipt and issues the update exactly once. -/
theorem c9_store_failure_aborts (st : ServerState) (sock senderId receiverId : Nat)
    (text : String) (tempId : Nat) (countFails : Bool) (i : Nat) (rest : List Nat) :
    sendMessage st sock senderId receiverId text tempId true countFails =
      ⟨st, [], [.insertMessage senderId receiverId text
        (lookupSocket st.userSockets receiverId).isSome]⟩ ∧
    messageRead st sock (some (i :: rest)) senderId receiverId true =
      ⟨st, [], [.updateRead (i :: rest)]⟩ := by
  constructor
  · rfl
  · unfold messageRead
    dsimp only
    rw [if_neg (by simp)]
    rfl

/-- C10: a disconnect touches nothing but the registry, and there removes
at most the first entry (in enumeration order) bound to the
disconnecting socket id: if no entry is bound to it the state is
unchanged, and if the registry splits as pre ++ (u, c) :: post with no
binding to c in pre, exactly that entry is removed and every other
entry — including later ones bound to the same socket — survives. -/
theorem c10_disconnect_removes_at_most_first (st : ServerState) (c : Nat) :
    (onDisconnect st c).state.messages = st.messages ∧
    (onDisconnect st c).state.nextId = st.nextId ∧
    (onDisconnect st c).emissions = [] ∧
    (onDisconnect st c).ops = [] ∧
    ((∀ e ∈ st.userSockets, e.2 ≠ c) → (onDisconnect st c).state = st) ∧
    (∀ pre post : List (Nat × Nat), ∀ u : Nat,
      st.userSockets = pre ++ (u, c) :: post → (∀ e ∈ pre, e.2 ≠ c) →
      (onDisconnect st c).state.userSockets = pre ++ post) := by
  refine ⟨rfl, rfl, rfl, rfl, ?_, ?_⟩
  · intro h
    show ({ st with userSockets := removeFirstBySocket st.userSockets c } : ServerState) = st
    rw [removeFirst_of_not_present st.userSockets c h]
  · intro pre post u hdecomp hpre
    show removeFirstBySocket st.userSockets c = pre ++ post
    rw [hdecomp, removeFirst_append_first pre post u c hpre]

/-- Witness for C10 at a concrete input: disconnecting socket 9 removes
only the first entry bound to it, (2, 9), and keeps the later (3, 9). -/
theorem c10_disconnect_removes_at_most_first_witness :
    (onDisconnect ⟨[(1, 5), (2, 9), (3, 9)], [], 1⟩ 9).state.userSockets =
      [(1, 5)] ++ [(3, 9)] :=
  (c10_disconnect_removes_at_most_first ⟨[(1, 5), (2, 9), (3, 9)], [], 1⟩ 9).2.2.2.2.2
    [(1, 5)] [(3, 9)] 2 (by decide) (by decide)

end LinkBackend
